import Mathlib

/-!
# Verification of the dictation app's server routes and UI logic

A shallow embedding of the logic of a browser-based dictation tool:
the `/api/polish` and `/api/transcribe` route handlers (an old and a new
version of the transcribe handler exist in the repository), the
configuration-saving logic of the LLM settings panel, and the recording
state machine of the main page.  Remote calls (the AI SDK's
`generateText`, the OpenAI audio-transcription fetch) are modelled by
passing their outcome in as an `Except` value and recording each call the
handler issues in a list, so that "no remote call is made" is a statement
about that list.
-/

namespace Dictation

/-- JavaScript string truthiness for a field that may be absent:
`null`/`undefined` (modelled as `none`) and the empty string are falsy. -/
def strTruthy : Option String → Bool
  | none => false
  | some s => s != ""

@[simp] theorem strTruthy_none : strTruthy none = false := rfl

@[simp] theorem strTruthy_some (s : String) : strTruthy (some s) = (s != "") := rfl

/-- A few-shot example, `interface Example { input: string; output: string }`. -/
structure Example where
  input : String
  output : String
deriving DecidableEq

/-- One block of the few-shot section of the polish prompt:
`Example ${index + 1}:\nInput: ${example.input}\nOutput: ${example.output}\n\n`. -/
def exampleBlock (i : Nat) (e : Example) : String :=
  "Example " ++ toString i ++ ":\nInput: " ++ e.input ++ "\nOutput: " ++ e.output ++ "\n\n"

/-- Prompt construction from `polishTextWithAI` (src/app/api/polish/route.ts):
start from `systemPrompt + "\n\n"`; if there are examples, append the header,
one `exampleBlock` per example (the `forEach` loop is a fold over the indexed
list), and the closing line; finally append the transcript. -/
def buildPrompt (systemPrompt : String) (examples : List Example) (transcript : String) : String :=
  let p := systemPrompt ++ "\n\n"
  let p :=
    if examples.length > 0 then
      (examples.enum.foldl (fun acc ie => acc ++ exampleBlock (ie.1 + 1) ie.2)
          (p ++ "Here are some examples of the desired output format:\n\n"))
        ++ "Now please process the following transcript:\n\n"
    else p
  p ++ transcript

/-- The prompt format as the specification words it: the system prompt followed
by a blank line; exactly when the example list is non-empty, the header, the
numbered example blocks in list order counting from 1, and the closing line;
finally the transcript. -/
def specPromptFormat (systemPrompt : String) (examples : List Example) (transcript : String) :
    String :=
  if examples = [] then
    systemPrompt ++ "\n\n" ++ transcript
  else
    systemPrompt ++ "\n\n" ++ "Here are some examples of the desired output format:\n\n" ++
      String.join (examples.enum.map fun ie =>
        "Example " ++ toString (ie.1 + 1) ++ ":\nInput: " ++ ie.2.input ++
          "\nOutput: " ++ ie.2.output ++ "\n\n") ++
      "Now please process the following transcript:\n\n" ++ transcript

/-- A left fold that appends the image of each element equals appending the
joined images to the start value. -/
theorem foldl_append_join {α : Type} (f : α → String) (l : List α) (a : String) :
    l.foldl (fun acc x => acc ++ f x) a = a ++ String.join (l.map f) := by
  induction l generalizing a with
  | nil => simp [String.join]
  | cons x xs ih =>
      simp only [List.foldl_cons, List.map_cons]
      rw [ih (a ++ f x)]
      apply String.ext
      simp [List.append_assoc]

/-- C2: the prompt sent to the text-generation endpoint equals the system
prompt followed by a blank line, then — exactly when the example list is
non-empty — the examples header, one numbered block per example in list order
counting from 1, and the closing line, and finally the transcript; with no
examples the prompt is exactly `systemPrompt ++ "\n\n" ++ transcript`. -/
theorem buildPrompt_eq_specPromptFormat (systemPrompt : String) (examples : List Example)
    (transcript : String) :
    buildPrompt systemPrompt examples transcript =
      specPromptFormat systemPrompt examples transcript := by
  unfold buildPrompt specPromptFormat
  cases examples with
  | nil => simp
  | cons e es =>
      simp only [List.length_cons, Nat.succ_pos, if_pos, List.cons_ne_nil, if_neg,
        reduceCtorEq, ite_false]
      rw [foldl_append_join (fun ie => exampleBlock (ie.1 + 1) ie.2) ((e :: es).enum)]
      simp [exampleBlock, String.append_assoc]

/-- A provider adapter instance, as produced by the `switch (provider)`
statements: which SDK constructor was called and with which arguments. -/
inductive ModelInstance where
  | openai (model : String) (apiKey : Option String)
  | azure (model : String) (apiKey : Option String) (baseURL apiVersion : Option String)
  | anthropic (model : String) (apiKey : Option String)
  | google (model : String) (apiKey : Option String)
  | mistral (model : String) (apiKey : Option String)
  | openaiCompatible (model : String) (baseURL : String) (apiKey : Option String)
deriving DecidableEq

/-- The body of a `NextResponse.json` response. -/
inductive RespBody where
  | polished (text : String)
  | transcription (text : String)
  | err (msg : String)
deriving DecidableEq

/-- An HTTP response: status code and JSON body. -/
structure Response where
  status : Nat
  body : RespBody
deriving DecidableEq

/-- An uploaded audio file: its MIME type and raw content. -/
structure AudioFile where
  mimeType : String
  data : String
deriving DecidableEq

/-- A remote call issued by a route handler.  For `genTextAudio` the handler
sends the base64 encoding of the file's bytes plus its MIME type; the encoding
is a fixed bijection applied identically at every call site, so the call is
recorded by the file itself. -/
inductive RemoteCall where
  | genText (m : ModelInstance) (prompt : String)
  | whisper (apiKey : String) (model : String) (prompt : String) (file : AudioFile)
  | genTextAudio (m : ModelInstance) (prompt : String) (file : AudioFile)
deriving DecidableEq

/-- The parsed JSON body of a polish request; absent fields are `none`. -/
structure PolishBody where
  transcript : Option String := none
  systemPrompt : Option String := none
  examples : Option (List Example) := none
  provider : Option String := none
  model : Option String := none
  apiKey : Option String := none
  baseURL : Option String := none
  apiVersion : Option String := none
deriving DecidableEq

/-- The `switch (provider)` of `polishTextWithAI`: which adapter is
constructed, or the error thrown.  The unrecognized-provider default falls
back to `openai("gpt-4o-mini")` with no key. -/
def selectPolishModel (provider model : String)
    (apiKey baseURL apiVersion : Option String) : Except String ModelInstance :=
  if provider = "openai" then
    .ok (.openai model (if strTruthy apiKey then apiKey else none))
  else if provider = "azure-openai" then
    .ok (.azure model apiKey (if strTruthy baseURL then baseURL else none)
      (if strTruthy apiVersion then apiVersion else none))
  else if provider = "anthropic" then
    if strTruthy apiKey then .ok (.anthropic model apiKey)
    else .error "API key required for Anthropic"
  else if provider = "google" then
    if strTruthy apiKey then .ok (.google model apiKey)
    else .error "API key required for Google"
  else if provider = "mistral" then
    if strTruthy apiKey then .ok (.mistral model apiKey)
    else .error "API key required for Mistral"
  else if provider = "openai-compatible" then
    if strTruthy baseURL then .ok (.openaiCompatible model (baseURL.getD "") apiKey)
    else .error "Base URL required for OpenAI-compatible provider"
  else
    .ok (.openai "gpt-4o-mini" none)

/-- `polishTextWithAI`: build the prompt, select the adapter, issue one
`generateText` call whose outcome is `remote`.  Returns the text or the
re-thrown error, together with the remote calls issued (none when adapter
selection throws, since the `generateText` call is never reached). -/
def polishTextWithAI (transcript systemPrompt : String) (examples : List Example)
    (provider model : String) (apiKey baseURL apiVersion : Option String)
    (remote : Except Unit String) : Except Unit String × List RemoteCall :=
  let prompt := buildPrompt systemPrompt examples transcript
  match selectPolishModel provider model apiKey baseURL apiVersion with
  | .error _ => (.error (), [])
  | .ok m =>
    match remote with
    | .error _ => (.error (), [.genText m prompt])
    | .ok t => (.ok t, [.genText m prompt])

/-- The polish route's `POST` handler (src/app/api/polish/route.ts):
destructuring defaults `examples = []`, `provider = "openai"`,
`model = "gpt-4o-mini"`; the missing-field check `!transcript ||
!systemPrompt` yields a 400 before anything else; an error thrown by
`polishTextWithAI` is caught and becomes a 500. -/
def polishPOST (b : PolishBody) (remote : Except Unit String) :
    Response × List RemoteCall :=
  if strTruthy b.transcript ∧ strTruthy b.systemPrompt then
    match polishTextWithAI (b.transcript.getD "") (b.systemPrompt.getD "")
        (b.examples.getD []) (b.provider.getD "openai") (b.model.getD "gpt-4o-mini")
        b.apiKey b.baseURL b.apiVersion remote with
    | (.ok text, calls) => (⟨200, .polished text⟩, calls)
    | (.error _, calls) => (⟨500, .err "Failed to polish transcript"⟩, calls)
  else
    (⟨400, .err "Missing required fields: transcript and systemPrompt"⟩, [])

/-- A concrete, fully valid polish request used to exhibit the behaviour of
the handler when the remote text-generation call fails. -/
def c1Body : PolishBody :=
  { transcript := some "um hello world", systemPrompt := some "Polish this text:",
    examples := some [], provider := some "openai", model := some "gpt-4o-mini",
    apiKey := some "sk-test" }

/-- C1 counterexample: for a polish request whose remote text-generation call
fails, the response is a 500 error "Failed to polish transcript" — it does not
carry any locally cleaned-up text; no regex fallback exists in the handler. -/
theorem polish_remote_failure_no_fallback_cex :
    (polishPOST c1Body (.error ())).1 = ⟨500, .err "Failed to polish transcript"⟩ := by
  decide

/-- C1 amended: for every polish request that passes the missing-field check,
when the remote text-generation call fails the handler returns a 500 response
with error "Failed to polish transcript" (the thrown error propagates; there
is no local cleanup fallback). -/
theorem polish_remote_failure_returns_500 (b : PolishBody)
    (ht : strTruthy b.transcript) (hs : strTruthy b.systemPrompt) :
    (polishPOST b (.error ())).1 = ⟨500, .err "Failed to polish transcript"⟩ := by
  simp only [polishPOST, polishTextWithAI, ht, hs, and_self, if_true]
  rcases selectPolishModel (b.provider.getD "openai") (b.model.getD "gpt-4o-mini")
      b.apiKey b.baseURL b.apiVersion with e | m <;> simp

/-- Witness for the amended C1 at a concrete request. -/
theorem polish_remote_failure_returns_500_witness :
    (polishPOST { transcript := some "hi there", systemPrompt := some "Polish:" }
        (.error ())).1 = ⟨500, .err "Failed to polish transcript"⟩ :=
  polish_remote_failure_returns_500 _ (by decide) (by decide)

/-- C3: for a polish request with non-empty transcript and system prompt whose
provider string is none of the six recognized ones, the request is not
rejected: the default branch selects the OpenAI adapter with model
"gpt-4o-mini" and no key, ignoring the request's model, apiKey and baseURL
fields (they do not occur in the result), and the call proceeds. -/
theorem polish_unknown_provider_falls_back (b : PolishBody) (p t : String)
    (hp : b.provider = some p)
    (h1 : p ≠ "openai") (h2 : p ≠ "azure-openai") (h3 : p ≠ "anthropic")
    (h4 : p ≠ "google") (h5 : p ≠ "mistral") (h6 : p ≠ "openai-compatible")
    (ht : strTruthy b.transcript) (hs : strTruthy b.systemPrompt) :
    polishPOST b (.ok t) =
      (⟨200, .polished t⟩,
        [.genText (.openai "gpt-4o-mini" none)
          (buildPrompt (b.systemPrompt.getD "") (b.examples.getD []) (b.transcript.getD ""))]) := by
  have hps : b.provider.getD "openai" = p := by rw [hp]; rfl
  simp only [polishPOST, ht, hs, and_self, if_true, polishTextWithAI, hps, selectPolishModel,
    if_neg h1, if_neg h2, if_neg h3, if_neg h4, if_neg h5, if_neg h6]

/-- Witness for C3 at a concrete request with provider "deepseek". -/
theorem polish_unknown_provider_falls_back_witness :
    polishPOST
        { transcript := some "hello", systemPrompt := some "Fix:",
          provider := some "deepseek", model := some "my-model",
          apiKey := some "key-123", baseURL := some "http://x" } (.ok "done") =
      (⟨200, .polished "done"⟩,
        [.genText (.openai "gpt-4o-mini" none) (buildPrompt "Fix:" [] "hello")]) :=
  polish_unknown_provider_falls_back _ "deepseek" "done" rfl (by decide) (by decide)
    (by decide) (by decide) (by decide) (by decide) (by decide) (by decide)

/-- C5: the polish handler answers 400 with error "Missing required fields:
transcript and systemPrompt" exactly when the transcript or the system prompt
is absent or empty, and in that case no adapter is selected and no remote call
is made (the call list is empty). -/
theorem polish_missing_fields_iff (b : PolishBody) (remote : Except Unit String) :
    ((polishPOST b remote).1 =
        ⟨400, .err "Missing required fields: transcript and systemPrompt"⟩ ↔
      (strTruthy b.transcript = false ∨ strTruthy b.systemPrompt = false)) ∧
    ((strTruthy b.transcript = false ∨ strTruthy b.systemPrompt = false) →
      polishPOST b remote =
        (⟨400, .err "Missing required fields: transcript and systemPrompt"⟩, [])) := by
  by_cases h : strTruthy b.transcript ∧ strTruthy b.systemPrompt
  · have hne : ¬ (strTruthy b.transcript = false ∨ strTruthy b.systemPrompt = false) := by
      rcases h with ⟨h1, h2⟩
      simp [h1, h2]
    refine ⟨⟨fun hresp => absurd ?_ hne, fun hf => absurd hf hne⟩, fun hf => absurd hf hne⟩
    exfalso
    revert hresp
    simp only [polishPOST, if_pos h]
    rcases polishTextWithAI (b.transcript.getD "") (b.systemPrompt.getD "")
        (b.examples.getD []) (b.provider.getD "openai") (b.model.getD "gpt-4o-mini")
        b.apiKey b.baseURL b.apiVersion remote with ⟨res, calls⟩
    cases res <;> simp
  · have hf : strTruthy b.transcript = false ∨ strTruthy b.systemPrompt = false := by
      rcases Decidable.not_and_iff_or_not.mp h with h1 | h1 <;>
        simp only [Bool.not_eq_true] at h1 <;> [exact Or.inl h1; exact Or.inr h1]
    simp [polishPOST, h, hf]

/-- Witness for C5 at a concrete request missing its transcript. -/
theorem polish_missing_fields_iff_witness :
    polishPOST { systemPrompt := some "Fix:" } (.ok "x") =
      (⟨400, .err "Missing required fields: transcript and systemPrompt"⟩, []) :=
  (polish_missing_fields_iff { systemPrompt := some "Fix:" } (.ok "x")).2 (Or.inl rfl)

/-- The parsed multipart form of a transcribe request; `formData.get` of an
absent field gives `null`, modelled as `none`. -/
structure TranscribeForm where
  audio : Option AudioFile := none
  provider : Option String := none
  model : Option String := none
  apiKey : Option String := none
  systemPrompt : Option String := none
  baseURL : Option String := none
  apiVersion : Option String := none
deriving DecidableEq

/-- The old transcribe handler (src/app/api/transcribe/route.ts).  The
missing-field check requires audio, provider, model and apiKey; the `switch`
supports openai, anthropic and google, answering 400 "Unsupported provider"
otherwise; for openai a fetch to the OpenAI audio-transcription endpoint is
made with model "whisper-1", for the others a multimodal `generateText`.
`whisperRemote` and `genRemote` are the outcomes of those two possible remote
calls; a thrown error becomes a 500. -/
def transcribePOSTOld (f : TranscribeForm)
    (whisperRemote genRemote : Except Unit String) : Response × List RemoteCall :=
  if f.audio.isSome ∧ strTruthy f.provider ∧ strTruthy f.model ∧ strTruthy f.apiKey then
    let audio := f.audio.getD { mimeType := "", data := "" }
    let provider := f.provider.getD ""
    let model := f.model.getD ""
    let apiKey := f.apiKey.getD ""
    let minst : Option ModelInstance :=
      if provider = "openai" then some (.openai model (some apiKey))
      else if provider = "anthropic" then some (.anthropic model (some apiKey))
      else if provider = "google" then some (.google model (some apiKey))
      else none
    match minst with
    | none => (⟨400, .err "Unsupported provider"⟩, [])
    | some m =>
      if provider = "openai" then
        let prompt := if strTruthy f.systemPrompt then f.systemPrompt.getD ""
          else "Transcribe this audio accurately."
        let call := RemoteCall.whisper apiKey "whisper-1" prompt audio
        match whisperRemote with
        | .ok t => (⟨200, .transcription t⟩, [call])
        | .error _ => (⟨500, .err "Failed to transcribe audio"⟩, [call])
      else
        let prompt := if strTruthy f.systemPrompt then f.systemPrompt.getD ""
          else "Transcribe this audio recording accurately. Provide only the transcription without any additional commentary."
        let call := RemoteCall.genTextAudio m prompt audio
        match genRemote with
        | .ok t => (⟨200, .transcription t⟩, [call])
        | .error _ => (⟨500, .err "Failed to transcribe audio"⟩, [call])
  else (⟨400, .err "Missing required fields"⟩, [])

/-- The new transcribe handler (src/unnamed/part_003).  `baseURL` and
`apiVersion` are collapsed to `undefined` when falsy; the missing-field check
no longer requires apiKey; the `switch` adds azure-openai, mistral and
openai-compatible (with their own 400s for a missing key or base URL) and
still answers 400 "Unsupported provider" in the default case; the openai
fast-path additionally requires an apiKey. -/
def transcribePOSTNew (f : TranscribeForm)
    (whisperRemote genRemote : Except Unit String) : Response × List RemoteCall :=
  let baseURL := if strTruthy f.baseURL then f.baseURL else none
  let apiVersion := if strTruthy f.apiVersion then f.apiVersion else none
  if f.audio.isSome ∧ strTruthy f.provider ∧ strTruthy f.model then
    let audio := f.audio.getD { mimeType := "", data := "" }
    let provider := f.provider.getD ""
    let model := f.model.getD ""
    let sel : Except Response ModelInstance :=
      if provider = "openai" then .ok (.openai model f.apiKey)
      else if provider = "azure-openai" then
        if strTruthy f.apiKey then .ok (.azure model f.apiKey baseURL apiVersion)
        else .error ⟨400, .err "API key required"⟩
      else if provider = "anthropic" then .ok (.anthropic model f.apiKey)
      else if provider = "google" then .ok (.google model f.apiKey)
      else if provider = "mistral" then .ok (.mistral model f.apiKey)
      else if provider = "openai-compatible" then
        if strTruthy baseURL then .ok (.openaiCompatible model (baseURL.getD "") f.apiKey)
        else .error ⟨400, .err "Base URL required"⟩
      else .error ⟨400, .err "Unsupported provider"⟩
    match sel with
    | .error r => (r, [])
    | .ok m =>
      if provider = "openai" then
        if strTruthy f.apiKey then
          let apiKey := f.apiKey.getD ""
          let prompt := if strTruthy f.systemPrompt then f.systemPrompt.getD ""
            else "Transcribe this audio accurately."
          let call := RemoteCall.whisper apiKey "whisper-1" prompt audio
          match whisperRemote with
          | .ok t => (⟨200, .transcription t⟩, [call])
          | .error _ => (⟨500, .err "Failed to transcribe audio"⟩, [call])
        else (⟨400, .err "API key required"⟩, [])
      else
        let prompt := if strTruthy f.systemPrompt then f.systemPrompt.getD ""
          else "Transcribe this audio recording accurately. Provide only the transcription without any additional commentary."
        let call := RemoteCall.genTextAudio m prompt audio
        match genRemote with
        | .ok t => (⟨200, .transcription t⟩, [call])
        | .error _ => (⟨500, .err "Failed to transcribe audio"⟩, [call])
  else (⟨400, .err "Missing required fields"⟩, [])

/-- C4: in both transcribe handlers, for a request that passes the
missing-field check, a provider string outside the supported set (the exact
string matches of the `switch`) yields a 400 response with error
"Unsupported provider" and no remote call is made. -/
theorem transcribe_unsupported_provider_400 (f : TranscribeForm) (p : String)
    (w g : Except Unit String)
    (hp : f.provider = some p) (hpne : p ≠ "")
    (haudio : f.audio.isSome) (hm : strTruthy f.model) :
    ((p ∉ (["openai", "azure-openai", "anthropic", "google", "mistral",
        "openai-compatible"] : List String)) →
      transcribePOSTNew f w g = (⟨400, .err "Unsupported provider"⟩, [])) ∧
    (strTruthy f.apiKey →
      (p ∉ (["openai", "anthropic", "google"] : List String)) →
      transcribePOSTOld f w g = (⟨400, .err "Unsupported provider"⟩, [])) := by
  have hps : f.provider.getD "" = p := by rw [hp]; rfl
  have hprov : strTruthy f.provider := by rw [hp]; simpa using hpne
  constructor
  · intro hmem
    simp only [List.mem_cons, List.not_mem_nil, or_false, not_or] at hmem
    obtain ⟨n1, n2, n3, n4, n5, n6⟩ := hmem
    simp [transcribePOSTNew, haudio, hprov, hm, hps, n1, n2, n3, n4, n5, n6]
  · intro hkey hmem
    simp only [List.mem_cons, List.not_mem_nil, or_false, not_or] at hmem
    obtain ⟨n1, n2, n3⟩ := hmem
    simp [transcribePOSTOld, haudio, hprov, hm, hkey, hps, n1, n2, n3]

/-- Witness for C4: provider "cohere" is rejected by both handlers with no
remote call. -/
theorem transcribe_unsupported_provider_400_witness :
    transcribePOSTNew
        { audio := some ⟨"audio/webm", "abc"⟩, provider := some "cohere",
          model := some "m", apiKey := some "k" } (.ok "t") (.ok "t") =
      (⟨400, .err "Unsupported provider"⟩, []) ∧
    transcribePOSTOld
        { audio := some ⟨"audio/webm", "abc"⟩, provider := some "cohere",
          model := some "m", apiKey := some "k" } (.ok "t") (.ok "t") =
      (⟨400, .err "Unsupported provider"⟩, []) :=
  ⟨(transcribe_unsupported_provider_400 _ "cohere" _ _ rfl (by decide) (by decide)
      (by decide)).1 (by decide),
   (transcribe_unsupported_provider_400 _ "cohere" _ _ rfl (by decide) (by decide)
      (by decide)).2 (by decide) (by decide)⟩

/-- C8: in both transcribe handlers, a validated request with provider
"openai" ignores the request's model field: the audio goes to the OpenAI
audio-transcription endpoint with model fixed to "whisper-1" and prompt the
request's systemPrompt (or "Transcribe this audio accurately." when absent or
empty), and the generic multimodal path is never taken (the only call issued
is the whisper fetch). -/
theorem transcribe_openai_uses_whisper (f : TranscribeForm) (a : AudioFile) (k : String)
    (w g : Except Unit String)
    (ha : f.audio = some a) (hp : f.provider = some "openai")
    (hm : strTruthy f.model) (hk : f.apiKey = some k) (hkne : k ≠ "") :
    transcribePOSTOld f w g =
      ((match w with
        | .ok t => ⟨200, .transcription t⟩
        | .error _ => ⟨500, .err "Failed to transcribe audio"⟩),
        [.whisper k "whisper-1"
          (if strTruthy f.systemPrompt then f.systemPrompt.getD ""
           else "Transcribe this audio accurately.") a]) ∧
    transcribePOSTNew f w g =
      ((match w with
        | .ok t => ⟨200, .transcription t⟩
        | .error _ => ⟨500, .err "Failed to transcribe audio"⟩),
        [.whisper k "whisper-1"
          (if strTruthy f.systemPrompt then f.systemPrompt.getD ""
           else "Transcribe this audio accurately.") a]) := by
  have hprov : strTruthy f.provider := by rw [hp]; decide
  have hkey : strTruthy f.apiKey := by rw [hk]; simpa using hkne
  have hps : f.provider.getD "" = "openai" := by rw [hp]; rfl
  have has : f.audio.getD { mimeType := "", data := "" } = a := by rw [ha]; rfl
  have haudio : f.audio.isSome := by rw [ha]; rfl
  have hks : f.apiKey.getD "" = k := by rw [hk]; rfl
  constructor <;> cases w <;>
    simp [transcribePOSTOld, transcribePOSTNew, haudio, hprov, hm, hkey, hps, has, hks]

/-- Witness for C8 at a concrete request, showing the model field
"gpt-4o" is replaced by "whisper-1". -/
theorem transcribe_openai_uses_whisper_witness :
    transcribePOSTOld
        { audio := some ⟨"audio/webm", "abc"⟩, provider := some "openai",
          model := some "gpt-4o", apiKey := some "sk-1",
          systemPrompt := some "Transcribe." } (.ok "hi") (.ok "zz") =
      (⟨200, .transcription "hi"⟩,
        [.whisper "sk-1" "whisper-1" "Transcribe." ⟨"audio/webm", "abc"⟩]) :=
  (transcribe_openai_uses_whisper _ ⟨"audio/webm", "abc"⟩ "sk-1" (.ok "hi") (.ok "zz")
    rfl rfl (by decide) rfl (by decide)).1

/-- The request on which the two transcribe handlers disagree: all fields but
the API key are present and the provider is "anthropic". -/
def c9Form : TranscribeForm :=
  { audio := some ⟨"audio/webm", "AAAA"⟩, provider := some "anthropic",
    model := some "claude-3-haiku-20240307", apiKey := none,
    systemPrompt := some "Transcribe." }

/-- C9 counterexample: on a request with no API key, the old handler rejects
with 400 "Missing required fields" while the new handler proceeds to the
remote multimodal call and answers 200 — the two handlers are not equivalent
and disagree on which requests are rejected for missing required fields. -/
theorem transcribe_handlers_not_equivalent_cex :
    transcribePOSTOld c9Form (.ok "hi") (.ok "hi") =
        (⟨400, .err "Missing required fields"⟩, []) ∧
      (transcribePOSTNew c9Form (.ok "hi") (.ok "hi")).1 = ⟨200, .transcription "hi"⟩ := by
  decide

/-- C9 amended: the two transcribe handlers agree (same response and same
remote calls, given the same remote outcomes) on every request whose apiKey
field is present and non-empty and whose provider is none of the three
providers only the new handler supports (azure-openai, mistral,
openai-compatible). -/
theorem transcribe_handlers_agree_with_apiKey (f : TranscribeForm)
    (w g : Except Unit String) (hk : strTruthy f.apiKey)
    (h1 : f.provider ≠ some "azure-openai") (h2 : f.provider ≠ some "mistral")
    (h3 : f.provider ≠ some "openai-compatible") :
    transcribePOSTOld f w g = transcribePOSTNew f w g := by
  rcases hK : f.apiKey with _ | k
  · rw [hK] at hk; simp at hk
  have hkne : k ≠ "" := by rw [hK] at hk; simpa using hk
  have hkey : strTruthy f.apiKey := by rw [hK]; simpa using hkne
  rcases hA : f.audio with _ | a
  · simp [transcribePOSTOld, transcribePOSTNew, hA]
  rcases hP : f.provider with _ | p
  · simp [transcribePOSTOld, transcribePOSTNew, hP]
  by_cases hpe : p = ""
  · simp [transcribePOSTOld, transcribePOSTNew, hP, hpe]
  rcases hM : f.model with _ | m
  · simp [transcribePOSTOld, transcribePOSTNew, hM]
  by_cases hme : m = ""
  · simp [transcribePOSTOld, transcribePOSTNew, hM, hme]
  have hz1 : p ≠ "azure-openai" := by intro hh; exact h1 (by rw [hP, hh])
  have hz2 : p ≠ "mistral" := by intro hh; exact h2 (by rw [hP, hh])
  have hz3 : p ≠ "openai-compatible" := by intro hh; exact h3 (by rw [hP, hh])
  by_cases ho : p = "openai"
  · cases w <;>
      simp [transcribePOSTOld, transcribePOSTNew, hA, hP, hM, hK, hkey, hkne, hpe, hme, ho]
  by_cases han : p = "anthropic"
  · cases g <;>
      simp [transcribePOSTOld, transcribePOSTNew, hA, hP, hM, hK, hkey, hkne, hpe, hme, ho, han]
  by_cases hgo : p = "google"
  · cases g <;>
      simp [transcribePOSTOld, transcribePOSTNew, hA, hP, hM, hK, hkey, hkne, hpe, hme, ho,
        han, hgo]
  · simp [transcribePOSTOld, transcribePOSTNew, hA, hP, hM, hK, hkey, hkne, hpe, hme, ho,
      han, hgo, hz1, hz2, hz3]

/-- Witness for the amended C9 at a concrete request with an API key. -/
theorem transcribe_handlers_agree_with_apiKey_witness :
    transcribePOSTOld
        { audio := some ⟨"audio/webm", "abc"⟩, provider := some "google",
          model := some "gemini-1.5-pro", apiKey := some "k" } (.ok "a") (.ok "b") =
      transcribePOSTNew
        { audio := some ⟨"audio/webm", "abc"⟩, provider := some "google",
          model := some "gemini-1.5-pro", apiKey := some "k" } (.ok "a") (.ok "b") :=
  transcribe_handlers_agree_with_apiKey _ _ _ (by decide) (by decide) (by decide) (by decide)

/-- The old LLM configuration record (src/unnamed/part_001 and
src/app/page.tsx): all three fields are plain strings. -/
structure LLMConfigOld where
  provider : String
  model : String
  apiKey : String
deriving DecidableEq

/-- The new LLM configuration record (src/unnamed/part_002 and
src/unnamed/part_004): the key and the per-provider fields are optional. -/
structure LLMConfigNew where
  provider : String
  model : String
  apiKey : Option String := none
  baseURL : Option String := none
  apiVersion : Option String := none
deriving DecidableEq

/-- A blob saved to localStorage: the `JSON.stringify` of a configuration.
The serialization is injective on these record types (undefined fields are
skipped, so distinct records give distinct JSON texts), so the blob is
modelled by the record it serializes. -/
inductive StoredJson where
  | oldCfg (c : LLMConfigOld)
  | newCfg (c : LLMConfigNew)
deriving DecidableEq

/-- localStorage as a partial map from keys to stored blobs. -/
def Store : Type := String → Option StoredJson

/-- `localStorage.setItem`. -/
def setItem (s : Store) (key : String) (v : StoredJson) : Store :=
  fun k => if k = key then some v else s k

/-- The validation of the old `handleSave`: provider, model and apiKey must
all be non-empty. -/
def validOld (c : LLMConfigOld) : Bool :=
  c.provider != "" && c.model != "" && c.apiKey != ""

/-- `validateConfig` from src/unnamed/part_002: the first failed check
produces the error message; openai-compatible needs no key; azure-openai and
openai-compatible need a base URL. -/
def validateConfig (c : LLMConfigNew) (kind : String) : Option String :=
  if c.provider = "" then some (kind ++ ": Select a provider")
  else if c.model = "" then
    some (kind ++ ": Select or enter a model" ++
      (if c.provider = "azure-openai" then " (deployment name)" else ""))
  else if c.provider ≠ "openai-compatible" ∧ ¬ strTruthy c.apiKey then
    some (kind ++ ": API key is required")
  else if c.provider = "azure-openai" ∧ ¬ strTruthy c.baseURL then
    some (kind ++ ": Azure base URL is required (e.g. https://<resource>.openai.azure.com)")
  else if c.provider = "openai-compatible" ∧ ¬ strTruthy c.baseURL then
    some (kind ++ ": Base URL is required for OpenAI-compatible providers")
  else none

/-- `handleSave` from src/unnamed/part_001: validate the transcription config,
then the polishing config, aborting without touching storage on the first
failure; on success write the two keys. -/
def handleSaveOld (t p : LLMConfigOld) (s : Store) : Store :=
  if ¬ validOld t then s
  else if ¬ validOld p then s
  else setItem (setItem s "dictation-transcription-config" (.oldCfg t))
    "dictation-polishing-config" (.oldCfg p)

/-- `handleSave` from src/unnamed/part_002, same shape with the richer
validation. -/
def handleSaveNew (t p : LLMConfigNew) (s : Store) : Store :=
  if (validateConfig t "Transcription").isSome then s
  else if (validateConfig p "Polishing").isSome then s
  else setItem (setItem s "dictation-transcription-config" (.newCfg t))
    "dictation-polishing-config" (.newCfg p)

/-- C6: in both versions of `handleSave`, saving writes exactly the two keys
"dictation-transcription-config" and "dictation-polishing-config" with the
serializations of the respective configs and leaves every other key as it
was; and when validation of either configuration fails, local storage is
entirely unchanged — no partial write. -/
theorem handleSave_atomic_two_keys (t p : LLMConfigNew) (t0 p0 : LLMConfigOld) (s : Store) :
    ((validateConfig t "Transcription").isSome ∨ (validateConfig p "Polishing").isSome →
      handleSaveNew t p s = s) ∧
    (validateConfig t "Transcription" = none → validateConfig p "Polishing" = none →
      handleSaveNew t p s "dictation-transcription-config" = some (.newCfg t) ∧
      handleSaveNew t p s "dictation-polishing-config" = some (.newCfg p) ∧
      ∀ k, k ≠ "dictation-transcription-config" → k ≠ "dictation-polishing-config" →
        handleSaveNew t p s k = s k) ∧
    (¬ validOld t0 ∨ ¬ validOld p0 → handleSaveOld t0 p0 s = s) ∧
    (validOld t0 → validOld p0 →
      handleSaveOld t0 p0 s "dictation-transcription-config" = some (.oldCfg t0) ∧
      handleSaveOld t0 p0 s "dictation-polishing-config" = some (.oldCfg p0) ∧
      ∀ k, k ≠ "dictation-transcription-config" → k ≠ "dictation-polishing-config" →
        handleSaveOld t0 p0 s k = s k) := by
  have hkeys : ("dictation-transcription-config" : String) ≠ "dictation-polishing-config" := by
    decide
  refine ⟨fun h => ?_, fun ht hp => ?_, fun h => ?_, fun ht hp => ?_⟩
  · rcases h with h | h <;> simp [handleSaveNew, h]
  · refine ⟨?_, ?_, fun k hk1 hk2 => ?_⟩ <;>
      simp [handleSaveNew, ht, hp, setItem, hkeys, *]
  · rcases h with h | h <;> simp [handleSaveOld, h]
  · refine ⟨?_, ?_, fun k hk1 hk2 => ?_⟩ <;>
      simp [handleSaveOld, ht, hp, setItem, hkeys, *]

/-- Witness for C6: a concrete valid save writes the transcription key. -/
theorem handleSave_atomic_two_keys_witness :
    handleSaveNew { provider := "openai", model := "gpt-4o", apiKey := some "k" }
        { provider := "google", model := "gemini-1.5-pro", apiKey := some "k2" }
        (fun _ => none) "dictation-transcription-config" =
      some (.newCfg { provider := "openai", model := "gpt-4o", apiKey := some "k" }) :=
  ((handleSave_atomic_two_keys
      { provider := "openai", model := "gpt-4o", apiKey := some "k" }
      { provider := "google", model := "gemini-1.5-pro", apiKey := some "k2" }
      ⟨"a", "b", "c"⟩ ⟨"a", "b", "c"⟩ (fun _ => none)).2.1 (by decide) (by decide)).1

/-- The two transcription modes. -/
inductive Mode where
  | browser
  | llm
deriving DecidableEq

/-- An observable action of the recording UI: starting or stopping the
browser speech recognizer or the media recorder, or issuing an HTTP request
with a multipart form. -/
inductive Effect where
  | recognitionStart
  | recognitionStop
  | mediaRecorderStart
  | mediaRecorderStop
  | fetchApi (url : String) (form : TranscribeForm)
deriving DecidableEq

/-- The recording-related component of the new page's state
(src/unnamed/part_004). -/
structure UIState where
  isRecording : Bool
  startedAt : Option Nat
deriving DecidableEq

/-- `startRecording` from src/unnamed/part_004: returns immediately when
already recording; in browser mode it starts the recognizer when one exists;
in llm mode it requires a transcription API key and microphone access
(`micGranted` is whether `getUserMedia` succeeds) and starts a media
recorder. -/
def startRecordingNew (s : UIState) (mode : Mode) (recognitionAvailable : Bool)
    (apiKey : Option String) (micGranted : Bool) (now : Nat) : UIState × List Effect :=
  if s.isRecording then (s, [])
  else match mode with
  | .browser =>
    if ¬ recognitionAvailable then (s, [])
    else ({ isRecording := true, startedAt := some now }, [.recognitionStart])
  | .llm =>
    if ¬ strTruthy apiKey then (s, [])
    else if micGranted then
      ({ isRecording := true, startedAt := some now }, [.mediaRecorderStart])
    else (s, [])

/-- `startRecording` from src/app/page.tsx: the browser branch is guarded by
`!isRecording`; the llm branch has no such guard. -/
def startRecordingOld (isRecording : Bool) (mode : Mode) (recognitionAvailable : Bool)
    (apiKey : String) (micGranted : Bool) : Bool × List Effect :=
  match mode with
  | .browser =>
    if recognitionAvailable ∧ ¬ isRecording then (true, [.recognitionStart])
    else (isRecording, [])
  | .llm =>
    if apiKey = "" then (isRecording, [])
    else if micGranted then (true, [.mediaRecorderStart])
    else (isRecording, [])

/-- C7 counterexample: in src/app/page.tsx, invoking startRecording in llm
mode while a recording is already active (isRecording = true, with a
configured key and microphone access) starts a second media-recorder session
— the claimed invariant fails for this implementation. -/
theorem startRecording_while_recording_cex :
    startRecordingOld true .llm true "sk-key" true = (true, [.mediaRecorderStart]) := by
  decide

/-- C7 amended: with isRecording true, part_004's startRecording is a no-op
in every mode (no session started, state unchanged), and page.tsx's
startRecording is a no-op in browser mode; the llm branch of page.tsx lacks
the guard. -/
theorem startRecording_no_second_session (st : Option Nat) (mode : Mode)
    (recognitionAvailable : Bool) (apiKey : Option String) (micGranted : Bool) (now : Nat)
    (oldKey : String) (ra2 mic2 : Bool) :
    startRecordingNew ⟨true, st⟩ mode recognitionAvailable apiKey micGranted now =
        (⟨true, st⟩, []) ∧
      startRecordingOld true .browser ra2 oldKey mic2 = (true, []) := by
  constructor
  · simp [startRecordingNew]
  · simp [startRecordingOld]

/-- `transcribeWithLLM` from src/unnamed/part_004: builds the multipart form
from the transcription configuration (empty string for a missing key, base
URL and API version only when truthy) and posts it to /api/transcribe. -/
def transcribeWithLLMNew (blob : AudioFile) (cfg : LLMConfigNew)
    (transcriptionPrompt : String) : List Effect :=
  [.fetchApi "/api/transcribe"
    { audio := some blob
      provider := some cfg.provider
      model := some cfg.model
      apiKey := some (if strTruthy cfg.apiKey then cfg.apiKey.getD "" else "")
      baseURL := if strTruthy cfg.baseURL then cfg.baseURL else none
      apiVersion := if strTruthy cfg.apiVersion then cfg.apiVersion else none
      systemPrompt := some transcriptionPrompt }]

/-- `transcribeWithLLM` from src/app/page.tsx. -/
def transcribeWithLLMOld (blob : AudioFile) (cfg : LLMConfigOld)
    (transcriptionPrompt : String) : List Effect :=
  [.fetchApi "/api/transcribe"
    { audio := some blob
      provider := some cfg.provider
      model := some cfg.model
      apiKey := some cfg.apiKey
      systemPrompt := some transcriptionPrompt }]

/-- The media recorder's `onstop` handler in src/unnamed/part_004: assemble
the recorded chunks into an "audio/webm" blob and hand it to
`transcribeWithLLM`. -/
def mediaRecorderOnStopNew (chunks : List String) (cfg : LLMConfigNew) (prompt : String) :
    List Effect :=
  transcribeWithLLMNew { mimeType := "audio/webm", data := String.join chunks } cfg prompt

/-- The media recorder's `onstop` handler in src/app/page.tsx. -/
def mediaRecorderOnStopOld (chunks : List String) (cfg : LLMConfigOld) (prompt : String) :
    List Effect :=
  transcribeWithLLMOld { mimeType := "audio/webm", data := String.join chunks } cfg prompt

/-- C10: transcription follows exactly one of two paths.  In browser mode
startRecording starts only the in-browser recognizer and issues no HTTP
request; in llm mode it starts only the media recorder (never the
recognizer), and the recorded blob is what the onstop handler posts to
/api/transcribe.  Both page versions behave this way. -/
theorem transcription_mode_selects_path (ra : Bool) (key : Option String) (mic : Bool)
    (now : Nat) (kold : String) (hra : ra = true) (hkey : strTruthy key)
    (hkold : kold ≠ "") :
    ((startRecordingNew ⟨false, none⟩ .browser ra key mic now).2 = [.recognitionStart] ∧
      ∀ u fm, Effect.fetchApi u fm ∉ (startRecordingNew ⟨false, none⟩ .browser ra key mic now).2) ∧
    (mic = true →
      (startRecordingNew ⟨false, none⟩ .llm ra key mic now).2 = [.mediaRecorderStart] ∧
      Effect.recognitionStart ∉ (startRecordingNew ⟨false, none⟩ .llm ra key mic now).2) ∧
    (∀ chunks (cfg : LLMConfigNew) (p : String),
      mediaRecorderOnStopNew chunks cfg p =
        [.fetchApi "/api/transcribe"
          { audio := some { mimeType := "audio/webm", data := String.join chunks }
            provider := some cfg.provider
            model := some cfg.model
            apiKey := some (if strTruthy cfg.apiKey then cfg.apiKey.getD "" else "")
            baseURL := if strTruthy cfg.baseURL then cfg.baseURL else none
            apiVersion := if strTruthy cfg.apiVersion then cfg.apiVersion else none
            systemPrompt := some p }]) ∧
    ((startRecordingOld false .browser ra kold mic).2 = [.recognitionStart] ∧
      ∀ u fm, Effect.fetchApi u fm ∉ (startRecordingOld false .browser ra kold mic).2) ∧
    (mic = true →
      (startRecordingOld false .llm ra kold mic).2 = [.mediaRecorderStart] ∧
      Effect.recognitionStart ∉ (startRecordingOld false .llm ra kold mic).2) ∧
    (∀ chunks (cfg : LLMConfigOld) (p : String),
      mediaRecorderOnStopOld chunks cfg p =
        [.fetchApi "/api/transcribe"
          { audio := some { mimeType := "audio/webm", data := String.join chunks }
            provider := some cfg.provider
            model := some cfg.model
            apiKey := some cfg.apiKey
            systemPrompt := some p }]) := by
  subst hra
  refine ⟨⟨?_, ?_⟩, fun hm => ⟨?_, ?_⟩, fun chunks cfg p => rfl, ⟨?_, ?_⟩,
    fun hm => ⟨?_, ?_⟩, fun chunks cfg p => rfl⟩ <;>
    simp [startRecordingNew, startRecordingOld, hkey, hkold, *]

/-- Witness for C10 at concrete arguments: browser mode starts exactly the
recognizer. -/
theorem transcription_mode_selects_path_witness :
    (startRecordingNew ⟨false, none⟩ .browser true (some "k") true 0).2 =
      [.recognitionStart] :=
  (transcription_mode_selects_path true (some "k") true 0 "k" rfl (by decide)
    (by decide)).1.1

end Dictation
